import Mathlib

/-!
# Verification of the Neuron hallucination-detection core

Shallow embedding of `hallucination_detection/hallucination_detector.py`:
the uncertainty quantifier, the self-consistency checker, the fact
verification agent and the orchestrating `detect` entry point, together
with theorems settling the specification claims about them.

Modelling conventions:
* Python floats are modelled as exact rationals (`ℚ`).
* Python strings are Lean `String`s; the helper functions below reimplement
  the Python primitives used by the source (`str.lower`, `str.strip`,
  `str.split`, `re.split` on runs of terminal punctuation, the `in`
  substring test and `str.startswith`) structurally over `List Char`, so
  that every definition evaluates by kernel reduction.
* A Python `dict` context is an association list; a non-string value is
  represented by the `CtxVal.other` constructor carrying its string
  rendering (only string-valued entries are ever inspected by the source).
* `np.mean []` (a NaN in numpy) is modelled as `0`; every call site in the
  source either guards the empty case or is invoked on nonempty data.
-/

namespace Neuron

/-! ## Python string primitives -/

/-- Does `hay` begin with `needle`?  (List-level `str.startswith`.) -/
def listAtStart : List Char → List Char → Bool
  | _, [] => true
  | [], _ :: _ => false
  | a :: hs, b :: ns => a == b && listAtStart hs ns

/-- Does `needle` occur contiguously inside `hay`?  (Python's `needle in hay`.) -/
def listOccurs (needle : List Char) : List Char → Bool
  | [] => needle.isEmpty
  | c :: rest => listAtStart (c :: rest) needle || listOccurs needle rest

/-- Python `needle in hay` on strings. -/
def strOccurs (needle hay : String) : Bool :=
  listOccurs needle.data hay.data

/-- Python `s.startswith(pre)`. -/
def strAtStart (s pre : String) : Bool :=
  listAtStart s.data pre.data

/-- Python `s.lower()` (ASCII case folding, as in all source inputs). -/
def lowerStr (s : String) : String :=
  String.mk (s.data.map Char.toLower)

/-- Python `s.strip()`. -/
def trimStr (s : String) : String :=
  String.mk (((s.data.dropWhile Char.isWhitespace).reverse.dropWhile
    Char.isWhitespace).reverse)

/-- One step of splitting a character list on maximal runs of separators.
The `Bool` records whether the character just to the right was a separator,
so that a run of separators produces a single boundary, exactly as
`re.split` with a `+`-quantified character class does. -/
def splitRunsStep (p : Char → Bool) (c : Char) :
    List (List Char) × Bool → List (List Char) × Bool
  | (groups, rightSep) =>
    if p c then
      if rightSep then (groups, true) else ([] :: groups, true)
    else
      match groups with
      | [] => ([[c]], false)
      | g :: gs => ((c :: g) :: gs, false)

/-- Split a character list on maximal runs of characters satisfying `p`,
keeping the (possibly empty) fragments at either end: the semantics of
`re.split(r'[..]+', s)`. -/
def splitRuns (p : Char → Bool) (cs : List Char) : List (List Char) :=
  (cs.foldr (splitRunsStep p) ([[]], false)).1

/-- Is the character terminal punctuation (`.`, `!` or `?`)? -/
def isTermChar (c : Char) : Bool :=
  c == '.' || c == '!' || c == '?'

/-- Python `re.split(r'[.!?]+', text)`: split into sentences. -/
def pySplitPunct (s : String) : List String :=
  (splitRuns isTermChar s.data).map (fun cs => String.mk cs)

/-- Python `s.split()`: split on whitespace runs, discarding empty pieces. -/
def pySplitWS (s : String) : List String :=
  ((splitRuns (fun c => c.isWhitespace) s.data).map
    (fun cs => String.mk cs)).filter (fun t => t ≠ "")

/-- Python `set(s.lower().split())`: the token set of a text. -/
def tokenSet (s : String) : Finset String :=
  (pySplitWS (lowerStr s)).toFinset

/-- `np.mean` on rationals; the empty list maps to `0` (see header note). -/
def qMean (xs : List ℚ) : ℚ :=
  xs.sum / (xs.length : ℚ)

/-! ## UncertaintyQuantifier -/

/-- The `uncertainty_markers` tiers of
`UncertaintyQuantifier.calculate_aleatoric_uncertainty`, in source order,
each paired with the weight its matches contribute. -/
def uncertainty_markers : List (ℚ × List String) :=
  [ (0.8, ["might", "maybe", "perhaps", "possibly", "uncertain",
           "unclear", "not sure", "probably not"]),
    (0.6, ["likely", "probably", "seems", "appears", "suggests"]),
    (0.4, ["could", "may", "might be"]),
    (0.2, ["should", "expected", "typically"]) ]

/-- Every marker string of every tier, in source iteration order. -/
def allMarkerStrings : List String :=
  uncertainty_markers.flatMap (fun lw => lw.2)

/-- The weights of the markers that occur in the lowercased response, one
entry per matched marker string (the source increments `marker_count` and
adds the tier weight once per marker found by the `in` substring test). -/
def matchedMarkerWeights (response : String) : List ℚ :=
  uncertainty_markers.flatMap (fun lw =>
    (lw.2.filter (fun m => strOccurs m (lowerStr response))).map (fun _ => lw.1))

/-- `UncertaintyQuantifier.calculate_aleatoric_uncertainty`. -/
def calculate_aleatoric_uncertainty (response : String) : ℚ :=
  let ws := matchedMarkerWeights response
  if ws.length = 0 then 0.1
  else min (ws.sum / (ws.length : ℚ)) 1

/-! ## Context and knowledge base -/

/-- A value of the `Dict[str, Any]` context.  Only string values are ever
inspected by the source (`isinstance(value, str)` guards); a non-string
value is carried abstractly together with its Python string rendering,
which is all `_generate_sample`'s f-string could observe. -/
inductive CtxVal where
  | str (s : String)
  | other (rendering : String)
deriving DecidableEq

/-- `Dict[str, Any]` context: an association list with distinct keys. -/
abbrev Context := List (String × CtxVal)

/-- Python `str(v)` / f-string rendering of a context value. -/
def ctxFormat : CtxVal → String
  | .str s => s
  | .other r => r

/-- The knowledge-base fingerprint of a claim.  The source computes
`hashlib.md5(claim.lower().encode()).hexdigest()`; the md5 digest of the
lowercased claim is modelled by the lowercased claim itself (an injective
stand-in for the hash), so knowledge-base keys are lowercased claim texts. -/
def fingerprint (claim : String) : String :=
  lowerStr claim

/-- The knowledge base: a read-only mapping from claim fingerprint to the
optional `confidence` field of the stored entry (`None` models an entry
dict without a `confidence` key, for which the source defaults to 0.8). -/
abbrev KnowledgeBase := List (String × Option ℚ)

/-! ## SelfConsistencyChecker -/

/-- The caller-supplied sampling collaborator (`agent_function`). -/
abbrev AgentFn := Context → String

/-- Result record of `SelfConsistencyChecker.check_consistency`. -/
structure ConsistencyCheck where
  samples : List String
  agreement_score : ℚ
  consensus_response : Option String
  divergent_points : List String
deriving DecidableEq

/-- The configuration fields of `SelfConsistencyChecker`. -/
structure SCConfig where
  num_samples : ℕ
  consensus_threshold : ℚ
deriving DecidableEq

/-- `SelfConsistencyChecker._generate_sample`.  The source method is a
placeholder: it never calls `agent_function` and returns the fixed
f-string `"Sample response for: {input_data.get('query', 'unknown')}"`. -/
def generate_sample (agent_function : AgentFn) (input_data : Context) : String :=
  "Sample response for: " ++ ctxFormat ((input_data.lookup "query").getD (.str "unknown"))

/-- All ordered pairs `(l[i], l[j])` with `i < j`, in the iteration order
of the source's nested `for i / for j in range(i+1, ..)` loops. -/
def pairwisePairs {α : Type} : List α → List (α × α)
  | [] => []
  | x :: xs => (xs.map (fun y => (x, y))) ++ pairwisePairs xs

/-- The body of the agreement loop for one pair of samples: `none` when
either token set is empty (the pair is skipped, nothing is appended),
otherwise the token-overlap ratio with the source's inline
`if total > 0 else 0` guard. -/
def pairAgreement (a b : String) : Option ℚ :=
  let ti := tokenSet a
  let tj := tokenSet b
  if ti ≠ ∅ ∧ tj ≠ ∅ then
    let overlap : ℕ := (ti ∩ tj).card
    let total : ℕ := (ti ∪ tj).card
    some (if 0 < total then (overlap : ℚ) / (total : ℚ) else 0)
  else none

/-- The `agreements` list of `SelfConsistencyChecker._calculate_agreement`. -/
def agreementVals (samples : List String) : List ℚ :=
  (pairwisePairs samples).filterMap (fun p => pairAgreement p.1 p.2)

/-- `SelfConsistencyChecker._calculate_agreement`. -/
def calculate_agreement (samples : List String) : ℚ :=
  if samples.length < 2 then 1
  else if agreementVals samples ≠ [] then qMean (agreementVals samples) else 0

/-- Index of the first maximum of a rational list (`np.argmax`). -/
def argmaxQ (xs : List ℚ) : ℕ :=
  (xs.foldl
    (fun acc x =>
      let best := acc.1
      let bestIdx := acc.2.1
      let idx := acc.2.2
      if best < x then (x, idx, idx + 1) else (best, bestIdx, idx + 1))
    ((xs.headD 0), 0, 0)).2.1

/-- The per-sample mean similarity of `SelfConsistencyChecker._find_consensus`:
similarities of `sample` to every element of `samples` (itself included),
pairs with an empty token set skipped. -/
def consensusScore (samples : List String) (sample : String) : ℚ :=
  qMean ((samples.filterMap (fun other => pairAgreement sample other)))

/-- `SelfConsistencyChecker._find_consensus`. -/
def find_consensus (samples : List String) : Option String :=
  if samples = [] then none
  else
    let consensus_scores := samples.map (consensusScore samples)
    some (samples.getD (argmaxQ consensus_scores) "")

/-- `SelfConsistencyChecker._extract_claims`: sentences of more than 10
characters (after stripping) containing one of the copular/possessive verb
tokens as a substring of the lowercased sentence. -/
def extract_claims (text : String) : List String :=
  (pySplitPunct text).filterMap (fun sentence =>
    let s := trimStr sentence
    if s.length > 10 ∧
        (["is", "are", "was", "were", "has", "have"].any
          (fun w => strOccurs w (lowerStr s))) then
      some s
    else none)

/-- The distinct elements of a list in order of first appearance: the
iteration order of a Python dict built by counting. -/
def distinctInOrder : List String → List String → List String
  | [], _ => []
  | x :: rest, seen =>
    if seen.contains x then distinctInOrder rest seen
    else x :: distinctInOrder rest (x :: seen)

/-- `SelfConsistencyChecker._identify_divergent_points`: claims appearing
in fewer than `0.3 * len(samples)` of the per-sample claim lists, first
five in first-appearance order. -/
def identify_divergent_points (samples : List String) : List String :=
  let all_claims := samples.flatMap extract_claims
  ((distinctInOrder all_claims []).filter
    (fun claim => ((all_claims.count claim : ℚ) < (samples.length : ℚ) * 0.3))).take 5

/-- `SelfConsistencyChecker.check_consistency`.  The sample loop appends
the result of `_generate_sample` exactly `num_samples` times; since that
placeholder is pure, the collected list is a replication of one value. -/
def check_consistency (cfg : SCConfig) (agent_function : AgentFn)
    (input_data : Context) : ConsistencyCheck :=
  let samples := List.replicate cfg.num_samples (generate_sample agent_function input_data)
  let agreement_score := calculate_agreement samples
  let consensus :=
    if agreement_score ≥ cfg.consensus_threshold then find_consensus samples else none
  let divergent := identify_divergent_points samples
  ⟨samples, agreement_score, consensus, divergent⟩

/-! ## FactVerificationAgent -/

/-- `ClaimVerification.status` values. -/
inductive ClaimStatus where
  | verified | contradicted | unverified
deriving DecidableEq

/-- `ClaimVerification.source` values (Python uses `None` for absence,
modelled by `Option`). -/
inductive ClaimSource where
  | knowledge_base | context
deriving DecidableEq

/-- One claim's verification record as returned by `_verify_single_claim`. -/
structure ClaimVerification where
  claim : String
  status : ClaimStatus
  source : Option ClaimSource
  confidence : ℚ
deriving DecidableEq

/-- `FactVerificationAgent._extract_factual_claims`: sentences of more
than 15 characters (after stripping) that do not start with one of the
subjective hedges.  Note: unlike `_extract_claims`, there is no
copular-verb requirement. -/
def extract_factual_claims (text : String) : List String :=
  (pySplitPunct text).filterMap (fun sentence =>
    let s := trimStr sentence
    if s.length > 15 ∧
        ¬ (["i think", "in my opinion", "perhaps"].any
          (fun p => strAtStart (lowerStr s) p)) then
      some s
    else none)

/-- `FactVerificationAgent._has_supporting_evidence`: some string-valued
context entry shares more than half of the claim's (distinct) tokens. -/
def has_supporting_evidence (claim : String) (context : Context) : Bool :=
  let claim_tokens := tokenSet claim
  context.any (fun kv =>
    match kv.2 with
    | .str value =>
      let value_tokens := tokenSet value
      decide (((claim_tokens ∩ value_tokens).card : ℚ) > (claim_tokens.card : ℚ) * 0.5)
    | .other _ => false)

/-- The negation markers of `_has_contradicting_evidence`. -/
def contradiction_markers : List String :=
  ["not", "never", "no", "false", "incorrect"]

/-- `FactVerificationAgent._has_contradicting_evidence`: some string-valued
context entry contains a negation marker and one of the claim's first
three words. -/
def has_contradicting_evidence (claim : String) (context : Context) : Bool :=
  context.any (fun kv =>
    match kv.2 with
    | .str value =>
      let value_lower := lowerStr value
      (contradiction_markers.any (fun m => strOccurs m value_lower)) &&
      (((pySplitWS (lowerStr claim)).take 3).any (fun w => strOccurs w value_lower))
    | .other _ => false)

/-- `FactVerificationAgent._verify_single_claim`: knowledge base first,
then context support, then context contradiction, else unverified. -/
def verify_single_claim (kb : KnowledgeBase) (claim : String)
    (context : Context) : ClaimVerification :=
  match kb.lookup (fingerprint claim) with
  | some kb_entry => ⟨claim, .verified, some .knowledge_base, kb_entry.getD 0.8⟩
  | none =>
    if has_supporting_evidence claim context then
      ⟨claim, .verified, some .context, 0.7⟩
    else if has_contradicting_evidence claim context then
      ⟨claim, .contradicted, some .context, 0.9⟩
    else
      ⟨claim, .unverified, none, 0⟩

/-- The summary dict built by `FactVerificationAgent.verify_claims`. -/
structure VerificationResults where
  total_claims : ℕ
  verified_claims : ℕ
  unverified_claims : ℕ
  contradicted_claims : ℕ
  claim_details : List ClaimVerification
deriving DecidableEq

/-- `FactVerificationAgent.verify_claims`. -/
def verify_claims (kb : KnowledgeBase) (response : String)
    (context : Context) : VerificationResults :=
  let claims := extract_factual_claims response
  let details := claims.map (fun c => verify_single_claim kb c context)
  ⟨claims.length,
   details.countP (fun d => d.status == .verified),
   details.countP (fun d => d.status == .unverified),
   details.countP (fun d => d.status == .contradicted),
   details⟩

/-! ## HallucinationDetector -/

/-- The closed `HallucinationType` tag set. -/
inductive HallucinationType where
  | factual_inconsistency
  | temporal_conflict
  | logical_contradiction
  | unsupported_claim
  | overconfidence
  | attribution_error
deriving DecidableEq

/-- The `.value` string of a `HallucinationType` member. -/
def typeValue : HallucinationType → String
  | .factual_inconsistency => "factual_inconsistency"
  | .temporal_conflict => "temporal_conflict"
  | .logical_contradiction => "logical_contradiction"
  | .unsupported_claim => "unsupported_claim"
  | .overconfidence => "overconfidence"
  | .attribution_error => "attribution_error"

/-- The `evidence` dict accumulated by `detect`: `aleatoric_uncertainty`
always, the consistency pair only when a sampler was supplied, and the
fact-verification summary always. -/
structure Evidence where
  aleatoric_uncertainty : ℚ
  consistency_check : Option (ℚ × List String)
  fact_verification : VerificationResults
deriving DecidableEq

/-- `HallucinationDetectionResult` (the `timestamp` field, a `datetime.now()`
side effect, is outside the pure model). -/
structure HallucinationDetectionResult where
  is_hallucination : Bool
  confidence_score : ℚ
  hallucination_types : List HallucinationType
  evidence : Evidence
  reasoning : String
  mitigation_suggestions : List String
deriving DecidableEq

/-- The configuration read by `HallucinationDetector.__init__` from its
`config` dict (the `dropout_rate` and `uncertainty_samples` entries are
stored on the uncertainty quantifier but never used by `detect`). -/
structure DetectorConfig where
  hallucination_threshold : ℚ
  consistency_samples : ℕ
  consensus_threshold : ℚ
  knowledge_base : KnowledgeBase
deriving DecidableEq

/-- The defaults of `HallucinationDetector.__init__`:
threshold 0.6, 5 consistency samples, consensus threshold 0.7, empty
knowledge base. -/
def defaultConfig : DetectorConfig :=
  ⟨0.6, 5, 0.7, []⟩

/-- Exact rational rendering of a score.  The source formats the float
with `f"{score:.2f}"`; the two-decimal rendering is abstracted to the
exact rational's string (no claim concerns the rendered digits). -/
def formatScore (q : ℚ) : String :=
  toString q

/-- `HallucinationDetector._generate_reasoning`. -/
def generate_reasoning (types : List HallucinationType)
    (evidence : Evidence) (confidence_score : ℚ) : String :=
  if types = [] then
    "Response appears reliable (confidence: " ++ formatScore confidence_score ++
      "). No hallucination patterns detected."
  else
    let base :=
      ["Potential hallucination detected (confidence: " ++
         formatScore confidence_score ++ ").",
       "Identified patterns: " ++
         String.intercalate ", " (types.map typeValue) ++ "."]
    let withUncertainty :=
      if evidence.aleatoric_uncertainty > 0.5 then
        base ++ ["High linguistic uncertainty detected (" ++
          formatScore evidence.aleatoric_uncertainty ++ ")."]
      else base
    let fv := evidence.fact_verification
    let withContradicted :=
      if fv.contradicted_claims > 0 then
        withUncertainty ++
          [toString fv.contradicted_claims ++ " contradicted claims found."]
      else withUncertainty
    let withUnverified :=
      if fv.unverified_claims > 0 then
        withContradicted ++
          [toString fv.unverified_claims ++ " unsupported claims detected."]
      else withContradicted
    String.intercalate " " withUnverified

/-- `HallucinationDetector._generate_mitigation_suggestions`. -/
def generate_mitigation_suggestions (types : List HallucinationType) : List String :=
  let s0 : List String := []
  let s1 := if types.contains .overconfidence then
      s0 ++ ["Request agent to explicitly state uncertainty and provide confidence intervals"]
    else s0
  let s2 := if types.contains .unsupported_claim then
      s1 ++ ["Ask agent to cite specific sources or evidence for claims"]
    else s1
  let s3 := if types.contains .factual_inconsistency then
      s2 ++ ["Generate multiple responses and compare for consistency"]
    else s2
  let s4 := if types.contains .logical_contradiction then
      s3 ++ ["Enable contradiction detection agent before finalizing response"]
    else s3
  if s4 = [] then ["Response appears reliable - no mitigation needed"] else s4

/-- `HallucinationDetector.detect` on well-typed inputs.  Each evidence
rule both appends its category and multiplies the confidence down, so the
category list and the confidence are threaded through matching
conditionals. -/
def detect (cfg : DetectorConfig) (response : String) (context : Context)
    (agent_function : Option AgentFn) : HallucinationDetectionResult :=
  let aleatoric := calculate_aleatoric_uncertainty response
  let types1 : List HallucinationType :=
    if aleatoric > 0.5 then [.overconfidence] else []
  let conf1 : ℚ := if aleatoric > 0.5 then 1 * (1 - aleatoric) else 1
  let cc : Option ConsistencyCheck :=
    match agent_function with
    | none => none
    | some f => some (check_consistency ⟨cfg.consistency_samples, cfg.consensus_threshold⟩ f context)
  let types2 :=
    match cc with
    | none => types1
    | some k =>
      if k.agreement_score < cfg.consensus_threshold then
        types1 ++ [.factual_inconsistency]
      else types1
  let conf2 :=
    match cc with
    | none => conf1
    | some k =>
      if k.agreement_score < cfg.consensus_threshold then
        conf1 * k.agreement_score
      else conf1
  let vr := verify_claims cfg.knowledge_base response context
  let types3 :=
    if vr.contradicted_claims > 0 then types2 ++ [.logical_contradiction] else types2
  let conf3 :=
    if vr.contradicted_claims > 0 then conf2 * 0.5 else conf2
  let types4 :=
    if vr.unverified_claims > vr.verified_claims then
      types3 ++ [.unsupported_claim]
    else types3
  let conf4 :=
    if vr.unverified_claims > vr.verified_claims then conf3 * 0.7 else conf3
  let is_h := conf4 < 1 - cfg.hallucination_threshold
  let ev : Evidence :=
    ⟨aleatoric,
     (match cc with
      | none => none
      | some k => some (k.agreement_score, k.divergent_points)),
     vr⟩
  ⟨is_h, conf4, types4, ev,
   generate_reasoning types4 ev conf4,
   generate_mitigation_suggestions types4⟩

/-- The four intermediate confidence values of a `detect` call, after each
of the four negative-evidence rules in order (hedging, consistency,
contradiction, unverified-majority); the score starts at 1 before the
first. -/
def confidenceSteps (cfg : DetectorConfig) (response : String)
    (context : Context) (agent_function : Option AgentFn) : ℚ × ℚ × ℚ × ℚ :=
  let aleatoric := calculate_aleatoric_uncertainty response
  let conf1 : ℚ := if aleatoric > 0.5 then 1 * (1 - aleatoric) else 1
  let cc : Option ConsistencyCheck :=
    match agent_function with
    | none => none
    | some f => some (check_consistency ⟨cfg.consistency_samples, cfg.consensus_threshold⟩ f context)
  let conf2 :=
    match cc with
    | none => conf1
    | some k =>
      if k.agreement_score < cfg.consensus_threshold then
        conf1 * k.agreement_score
      else conf1
  let vr := verify_claims cfg.knowledge_base response context
  let conf3 :=
    if vr.contradicted_claims > 0 then conf2 * 0.5 else conf2
  let conf4 :=
    if vr.unverified_claims > vr.verified_claims then conf3 * 0.7 else conf3
  (conf1, conf2, conf3, conf4)

/-! ## Dynamic typing at the `detect` entry point

The source performs no input validation: `detect` immediately calls
`response.lower()` (inside `calculate_aleatoric_uncertainty`) and later
`context.items()` (inside the per-claim context checks, reached only when
some extracted claim misses the knowledge base).  The Python dynamic-type
errors this produces are modelled explicitly. -/

/-- A Python value passed where `detect` expects `str` / `dict`. -/
inductive PyVal where
  | pstr (s : String)
  | pint (n : ℤ)
  | pdict (d : Context)
deriving DecidableEq

/-- Error classes observable from a `detect` call.  `invalidInputError`
is the class the specification names; it does not occur anywhere in the
source, which is the point of the claim about it. -/
inductive PyErr where
  | attributeError
  | invalidInputError
deriving DecidableEq

/-- `detect` under Python dynamic typing, without a sampler.
* a non-`str` response raises `AttributeError` from `response.lower()`
  (neither `int` nor `dict` has a `lower` attribute);
* a non-`dict` context raises `AttributeError` from `context.items()`,
  but only if some extracted claim misses the knowledge base and so
  reaches the context-evidence check; when every claim is a
  knowledge-base hit (in particular when no claim is extracted), the
  context is never inspected and the call succeeds;
* well-typed input never raises. -/
def detectDyn (cfg : DetectorConfig) (response context : PyVal) :
    Except PyErr HallucinationDetectionResult :=
  match response with
  | .pint _ => .error .attributeError
  | .pdict _ => .error .attributeError
  | .pstr s =>
    match context with
    | .pdict d => .ok (detect cfg s d none)
    | _ =>
      if (extract_factual_claims s).all
          (fun c => (cfg.knowledge_base.lookup (fingerprint c)).isSome) then
        .ok (detect cfg s [] none)
      else .error .attributeError

/-- Is the call outcome a normal return? -/
def exceptIsOk : Except PyErr HallucinationDetectionResult → Bool
  | .ok _ => true
  | .error _ => false

/-- The error of a failed call outcome, if any. -/
def exceptErr : Except PyErr HallucinationDetectionResult → Option PyErr
  | .ok _ => none
  | .error e => some e

/-! ## The claim-extraction rule as the specification words it

The spec asserts one shared filter (length > 15, no leading hedge, and a
copular/possessive verb token) used by both extraction methods; this
definition follows the spec's words so it can be compared with the two
source extractors. -/

/-- Modelled from the spec (§4.3 claim extraction rule): sentences split
on terminal punctuation, kept when longer than 15 characters, not
beginning with a subjective hedge, and containing a copular/possessive
verb token. -/
def specSharedClaimFilter (text : String) : List String :=
  (pySplitPunct text).filterMap (fun sentence =>
    let s := trimStr sentence
    if s.length > 15 ∧
        ¬ (["i think", "in my opinion", "perhaps"].any
          (fun p => strAtStart (lowerStr s) p)) ∧
        (["is", "are", "was", "were", "has", "have"].any
          (fun w => strOccurs w (lowerStr s))) then
      some s
    else none)

/-! ## Basic lemmas -/

/-- Every weight collected by the marker scan is one of the four tier
weights, hence lies in `[0,1]`. -/
theorem matchedMarkerWeights_mem_bounds {r : String} {w : ℚ}
    (hw : w ∈ matchedMarkerWeights r) : 0 ≤ w ∧ w ≤ 1 := by
  simp only [matchedMarkerWeights, uncertainty_markers, List.flatMap_cons,
    List.flatMap_nil, List.append_nil, List.mem_append, List.mem_map] at hw
  rcases hw with (⟨m, _, rfl⟩ | ⟨m, _, rfl⟩ | ⟨m, _, rfl⟩ | ⟨m, _, rfl⟩) <;>
    norm_num

/-- A mean of values in `[0,1]` over a nonempty list lies in `[0,1]`. -/
theorem qMean_bounds {xs : List ℚ} (hne : xs ≠ [])
    (h : ∀ x ∈ xs, 0 ≤ x ∧ x ≤ 1) : 0 ≤ qMean xs ∧ qMean xs ≤ 1 := by
  have hlen : 0 < (xs.length : ℚ) := by
    exact_mod_cast List.length_pos.mpr hne
  have hsum0 : 0 ≤ xs.sum := List.sum_nonneg (fun x hx => (h x hx).1)
  have hsum1 : xs.sum ≤ (xs.length : ℚ) := by
    have := List.sum_le_card_nsmul xs 1 (fun x hx => (h x hx).2)
    simpa using this
  constructor
  · exact div_nonneg hsum0 hlen.le
  · rw [qMean, div_le_one hlen]
    exact hsum1

/-- `calculate_aleatoric_uncertainty` always lies in `[0,1]`. -/
theorem aleatoric_bounds (r : String) :
    0 ≤ calculate_aleatoric_uncertainty r ∧
    calculate_aleatoric_uncertainty r ≤ 1 := by
  rw [calculate_aleatoric_uncertainty]
  split
  · norm_num
  · rename_i hlen
    constructor
    · apply le_min _ zero_le_one
      apply div_nonneg
      · exact List.sum_nonneg (fun x hx => (matchedMarkerWeights_mem_bounds hx).1)
      · positivity
    · exact min_le_right _ _

/-- A value produced by the agreement loop body lies in `[0,1]`. -/
theorem pairAgreement_bounds {a b : String} {q : ℚ}
    (h : pairAgreement a b = some q) : 0 ≤ q ∧ q ≤ 1 := by
  rw [pairAgreement] at h
  split at h
  · rename_i hne
    simp only [Option.some.injEq] at h
    subst h
    split
    · rename_i htotal
      have htotal' : (0:ℚ) < ((tokenSet a ∪ tokenSet b).card : ℚ) := by
        exact_mod_cast htotal
      constructor
      · positivity
      · rw [div_le_one htotal']
        exact_mod_cast Finset.card_le_card
          (Finset.Subset.trans (Finset.inter_subset_left) (Finset.subset_union_left))
    · norm_num
  · exact absurd h (by simp)

/-- `_calculate_agreement` always lies in `[0,1]`. -/
theorem calculate_agreement_bounds (samples : List String) :
    0 ≤ calculate_agreement samples ∧ calculate_agreement samples ≤ 1 := by
  rw [calculate_agreement]
  split
  · norm_num
  · split
    · rename_i hne
      apply qMean_bounds hne
      intro x hx
      rcases List.mem_filterMap.mp hx with ⟨p, _, hp⟩
      exact pairAgreement_bounds hp
    · norm_num

/-- The marker scan finds nothing exactly when no marker string occurs in
the lowercased response. -/
theorem matchedMarkerWeights_eq_nil_iff (r : String) :
    matchedMarkerWeights r = [] ↔
      ∀ m ∈ allMarkerStrings, strOccurs m (lowerStr r) = false := by
  simp only [matchedMarkerWeights, allMarkerStrings, uncertainty_markers,
    List.flatMap_cons, List.flatMap_nil, List.append_nil, List.append_eq_nil,
    List.map_eq_nil_iff, List.filter_eq_nil_iff, List.mem_append,
    Bool.not_eq_true]
  constructor
  · rintro ⟨h1, h2, h3, h4⟩ m hm
    rcases hm with (hm | hm | hm | hm)
    · exact h1 m hm
    · exact h2 m hm
    · exact h3 m hm
    · exact h4 m hm
  · intro h
    exact ⟨fun m hm => h m (Or.inl hm), fun m hm => h m (Or.inr (Or.inl hm)),
      fun m hm => h m (Or.inr (Or.inr (Or.inl hm))),
      fun m hm => h m (Or.inr (Or.inr (Or.inr hm)))⟩

/-- C8: for every response with no occurring hedging marker the aleatoric
uncertainty is exactly the 0.1 baseline; when at least one marker occurs
it is `min 1` of the accumulated tier weights divided by the matched
marker count; in all cases it lies in `[0,1]`. -/
theorem C8_aleatoric_baseline_and_formula (response : String) :
    ((∀ m ∈ allMarkerStrings, strOccurs m (lowerStr response) = false) →
      calculate_aleatoric_uncertainty response = 0.1) ∧
    ((∃ m ∈ allMarkerStrings, strOccurs m (lowerStr response) = true) →
      calculate_aleatoric_uncertainty response =
        min ((matchedMarkerWeights response).sum /
          ((matchedMarkerWeights response).length : ℚ)) 1) ∧
    0 ≤ calculate_aleatoric_uncertainty response ∧
    calculate_aleatoric_uncertainty response ≤ 1 := by
  refine ⟨?_, ?_, aleatoric_bounds response⟩
  · intro h
    rw [calculate_aleatoric_uncertainty]
    have hnil : matchedMarkerWeights response = [] :=
      (matchedMarkerWeights_eq_nil_iff response).mpr h
    simp [hnil]
  · rintro ⟨m, hm, hocc⟩
    have hne : matchedMarkerWeights response ≠ [] := by
      intro hnil
      have := (matchedMarkerWeights_eq_nil_iff response).mp hnil m hm
      simp [hocc] at this
    rw [calculate_aleatoric_uncertainty]
    rw [if_neg (fun h => hne (List.length_eq_zero.mp h))]

/-- Witness for C8 at the marker-free response `"hello world"` and the
response `"might rain"` containing the marker `"might"`. -/
theorem C8_aleatoric_baseline_witness :
    calculate_aleatoric_uncertainty "hello world" = 0.1 ∧
    calculate_aleatoric_uncertainty "might rain" =
      min ((matchedMarkerWeights "might rain").sum /
        ((matchedMarkerWeights "might rain").length : ℚ)) 1 :=
  ⟨(C8_aleatoric_baseline_and_formula "hello world").1 (by decide),
   (C8_aleatoric_baseline_and_formula "might rain").2.1 ⟨"might", by decide, by decide⟩⟩

/-- The aleatoric uncertainty depends only on which marker strings occur
as substrings of the lowercased response. -/
theorem aleatoric_ext {r₁ r₂ : String}
    (h : ∀ m ∈ allMarkerStrings, strOccurs m (lowerStr r₁) = strOccurs m (lowerStr r₂)) :
    calculate_aleatoric_uncertainty r₁ = calculate_aleatoric_uncertainty r₂ := by
  have hw : matchedMarkerWeights r₁ = matchedMarkerWeights r₂ := by
    simp only [matchedMarkerWeights, uncertainty_markers, List.flatMap_cons,
      List.flatMap_nil, List.append_nil]
    have htier : ∀ tier : List String, (∀ m ∈ tier, m ∈ allMarkerStrings) →
        tier.filter (fun m => strOccurs m (lowerStr r₁)) =
          tier.filter (fun m => strOccurs m (lowerStr r₂)) := by
      intro tier hsub
      apply List.filter_congr
      intro m hm
      exact h m (hsub m hm)
    rw [htier _ (by decide), htier _ (by decide), htier _ (by decide),
      htier _ (by decide)]
  rw [calculate_aleatoric_uncertainty, calculate_aleatoric_uncertainty, hw]

/-- C10: the aleatoric uncertainty is a function of which marker strings
occur as substrings of the lowercased response — each marker contributes
its weight once regardless of how many times it occurs, and a marker
inside a longer word (`"may"` inside `"mayor"`) still counts. -/
theorem C10_aleatoric_substring_occurrence :
    (∀ r₁ r₂ : String,
      (∀ m ∈ allMarkerStrings,
        strOccurs m (lowerStr r₁) = strOccurs m (lowerStr r₂)) →
      calculate_aleatoric_uncertainty r₁ = calculate_aleatoric_uncertainty r₂) ∧
    calculate_aleatoric_uncertainty "the mayor spoke" = 0.4 ∧
    calculate_aleatoric_uncertainty "may may may" =
      calculate_aleatoric_uncertainty "may" := by
  refine ⟨fun r₁ r₂ h => aleatoric_ext h, ?_, aleatoric_ext (by decide)⟩
  have h1 : (["might", "maybe", "perhaps", "possibly", "uncertain",
      "unclear", "not sure", "probably not"].filter
        (fun m => strOccurs m (lowerStr "the mayor spoke"))) = [] := by decide
  have h2 : (["likely", "probably", "seems", "appears", "suggests"].filter
      (fun m => strOccurs m (lowerStr "the mayor spoke"))) = [] := by decide
  have h3 : (["could", "may", "might be"].filter
      (fun m => strOccurs m (lowerStr "the mayor spoke"))) = ["may"] := by decide
  have h4 : (["should", "expected", "typically"].filter
      (fun m => strOccurs m (lowerStr "the mayor spoke"))) = [] := by decide
  have hw : matchedMarkerWeights "the mayor spoke" = [0.4] := by
    simp only [matchedMarkerWeights, uncertainty_markers, List.flatMap_cons,
      List.flatMap_nil, List.append_nil]
    rw [h1, h2, h3, h4]
    simp
  rw [calculate_aleatoric_uncertainty, hw]
  norm_num

/-- Witness for C10: the responses `"may"` and `"the mayor spoke"` match
the same marker set (just `"may"`, inside `"mayor"` for the second), so
their aleatoric uncertainties agree. -/
theorem C10_aleatoric_substring_witness :
    calculate_aleatoric_uncertainty "may" =
      calculate_aleatoric_uncertainty "the mayor spoke" :=
  C10_aleatoric_substring_occurrence.1 "may" "the mayor spoke" (by decide)

/-! ## C1: confidence monotonicity -/

/-- The hedging rule's result lies in `[0,1]` when the uncertainty does. -/
theorem hedge_step_bounds {a : ℚ} (h0 : 0 ≤ a) (h1 : a ≤ 1) :
    0 ≤ (if a > 0.5 then 1 * (1 - a) else (1:ℚ)) ∧
    (if a > 0.5 then 1 * (1 - a) else (1:ℚ)) ≤ 1 := by
  split <;> constructor <;> nlinarith

/-- A conditional multiplication by a factor in `[0,1]` never increases a
nonnegative score and keeps it nonnegative. -/
theorem condMul_le (P : Prop) [Decidable P] (g : ℚ) {c : ℚ} (hc : 0 ≤ c)
    (hg0 : 0 ≤ g) (hg1 : g ≤ 1) :
    (if P then c * g else c) ≤ c ∧ 0 ≤ (if P then c * g else c) := by
  split
  · exact ⟨mul_le_of_le_one_right hc hg1, mul_nonneg hc hg0⟩
  · exact ⟨le_refl c, hc⟩

/-- C1: within one `detect` call the confidence starts at 1 and each of
the four negative-evidence rules multiplies it by a factor in `[0,1]`
(`1 - aleatoric`, the agreement score, `0.5`, `0.7`), so the intermediate
scores are non-increasing and the returned `confidence_score` — the last
of them — lies in `[0,1]`, for every response, context, configuration and
sampler. -/
theorem C1_confidence_monotone (cfg : DetectorConfig) (response : String)
    (context : Context) (agent_function : Option AgentFn) :
    (detect cfg response context agent_function).confidence_score =
      (confidenceSteps cfg response context agent_function).2.2.2 ∧
    (confidenceSteps cfg response context agent_function).1 ≤ 1 ∧
    (confidenceSteps cfg response context agent_function).2.1 ≤
      (confidenceSteps cfg response context agent_function).1 ∧
    (confidenceSteps cfg response context agent_function).2.2.1 ≤
      (confidenceSteps cfg response context agent_function).2.1 ∧
    (confidenceSteps cfg response context agent_function).2.2.2 ≤
      (confidenceSteps cfg response context agent_function).2.2.1 ∧
    0 ≤ (confidenceSteps cfg response context agent_function).2.2.2 := by
  refine ⟨rfl, ?_⟩
  have ha := aleatoric_bounds response
  obtain ⟨h10, h11⟩ := hedge_step_bounds ha.1 ha.2
  cases agent_function with
  | none =>
    simp only [confidenceSteps]
    obtain ⟨h3le, h30⟩ := condMul_le
      ((verify_claims cfg.knowledge_base response context).contradicted_claims > 0)
      0.5 h10 (by norm_num) (by norm_num)
    obtain ⟨h4le, h40⟩ := condMul_le
      ((verify_claims cfg.knowledge_base response context).unverified_claims >
        (verify_claims cfg.knowledge_base response context).verified_claims)
      0.7 h30 (by norm_num) (by norm_num)
    exact ⟨h11, le_refl _, h3le, h4le, h40⟩
  | some f =>
    have hag := calculate_agreement_bounds
      (List.replicate cfg.consistency_samples (generate_sample f context))
    simp only [confidenceSteps, check_consistency]
    obtain ⟨h2le, h20⟩ := condMul_le
      (calculate_agreement
        (List.replicate cfg.consistency_samples (generate_sample f context)) <
        cfg.consensus_threshold)
      (calculate_agreement
        (List.replicate cfg.consistency_samples (generate_sample f context)))
      h10 hag.1 hag.2
    obtain ⟨h3le, h30⟩ := condMul_le
      ((verify_claims cfg.knowledge_base response context).contradicted_claims > 0)
      0.5 h20 (by norm_num) (by norm_num)
    obtain ⟨h4le, h40⟩ := condMul_le
      ((verify_claims cfg.knowledge_base response context).unverified_claims >
        (verify_claims cfg.knowledge_base response context).verified_claims)
      0.7 h30 (by norm_num) (by norm_num)
    exact ⟨h11, h2le, h3le, h4le, h40⟩

/-! ## C5 and C6: fact verification priority -/

/-- C5: a knowledge-base hit on the case-folded fingerprint always yields
status `verified` with source `knowledge_base` and the stored confidence
(default 0.8 when the entry has none), for every context — in particular
a context that would contradict the claim is never consulted. -/
theorem C5_kb_hit_wins (kb : KnowledgeBase) (claim : String)
    (context : Context) (kb_entry : Option ℚ)
    (h : kb.lookup (fingerprint claim) = some kb_entry) :
    verify_single_claim kb claim context =
      ⟨claim, .verified, some .knowledge_base, kb_entry.getD 0.8⟩ := by
  simp only [verify_single_claim, h]

/-- Witness for C5: the knowledge base stores the (false) claim with
confidence 9/10 and the context contradicts it, yet the knowledge-base
hit wins. -/
theorem C5_kb_hit_wins_witness :
    verify_single_claim
      [("paris is the capital of germany", some (mkRat 9 10))]
      "Paris is the capital of Germany"
      [("note", CtxVal.str "no that is false paris is not in germany")] =
      ⟨"Paris is the capital of Germany", .verified, some .knowledge_base,
        (some (mkRat 9 10)).getD 0.8⟩ :=
  C5_kb_hit_wins _ _ _ _ (by decide)

/-- C6: a claim that misses the knowledge base but occurs verbatim as a
string value of the context is verified from context with confidence 0.7,
because its token overlap with that value is its full (positive) token
count, which exceeds the 50% bound. -/
theorem C6_verbatim_context_support (kb : KnowledgeBase) (claim key : String)
    (context : Context) (hkb : kb.lookup (fingerprint claim) = none)
    (hmem : (key, CtxVal.str claim) ∈ context)
    (htok : tokenSet claim ≠ ∅) :
    verify_single_claim kb claim context =
      ⟨claim, .verified, some .context, 0.7⟩ := by
  have hsupp : has_supporting_evidence claim context = true := by
    rw [has_supporting_evidence, List.any_eq_true]
    refine ⟨(key, .str claim), hmem, ?_⟩
    simp only [Finset.inter_self, decide_eq_true_eq]
    have hpos : 0 < (tokenSet claim).card :=
      Finset.card_pos.mpr (Finset.nonempty_iff_ne_empty.mpr htok)
    have hcast : (1:ℚ) ≤ ((tokenSet claim).card : ℚ) := by
      exact_mod_cast hpos
    nlinarith
  simp only [verify_single_claim, hkb, hsupp, if_true]

/-- Witness for C6: the claim is stored verbatim under the context key
`"geo"` and the knowledge base is empty. -/
theorem C6_verbatim_context_support_witness :
    verify_single_claim [] "Paris is the capital of France"
      [("geo", CtxVal.str "Paris is the capital of France")] =
      ⟨"Paris is the capital of France", .verified, some .context, 0.7⟩ :=
  C6_verbatim_context_support [] "Paris is the capital of France" "geo" _
    (by decide) (by decide) (by decide)

/-! ## C7: empty inputs -/

/-- C7: `detect` on the empty response and empty context (no sampler)
returns normally: no claim is extracted, no negative-evidence rule fires,
the confidence stays 1 (above the flagging floor `1 - 0.6`) and the
verdict is `is_hallucination = false`. -/
theorem C7_empty_inputs :
    (detect defaultConfig "" [] none).is_hallucination = false ∧
    (detect defaultConfig "" [] none).confidence_score = 1 ∧
    (detect defaultConfig "" [] none).hallucination_types = [] ∧
    (detect defaultConfig "" [] none).evidence.fact_verification.total_claims = 0 := by
  have ha : calculate_aleatoric_uncertainty "" = 0.1 := by
    have hnil : matchedMarkerWeights "" = [] := by decide
    rw [calculate_aleatoric_uncertainty]
    simp [hnil]
  have hv : verify_claims [] "" [] = ⟨0, 0, 0, 0, []⟩ := by
    decide
  simp only [detect, defaultConfig, ha, hv]
  norm_num

/-! ## C9: producible categories -/

/-- C9: the categories of any `detect` result are among overconfidence,
factual inconsistency, logical contradiction and unsupported claim;
`temporal_conflict` and `attribution_error`, though members of the tag
set, are never produced. -/
theorem C9_category_subset (cfg : DetectorConfig) (response : String)
    (context : Context) (agent_function : Option AgentFn) :
    HallucinationType.temporal_conflict ∉
      (detect cfg response context agent_function).hallucination_types ∧
    HallucinationType.attribution_error ∉
      (detect cfg response context agent_function).hallucination_types ∧
    (detect cfg response context agent_function).hallucination_types ⊆
      [HallucinationType.overconfidence, HallucinationType.factual_inconsistency,
       HallucinationType.logical_contradiction, HallucinationType.unsupported_claim] := by
  cases agent_function <;>
    simp only [detect] <;>
    split_ifs <;>
    refine ⟨?_, ?_, ?_⟩ <;>
    simp [List.subset_def]

/-! ## C2: the two claim extractors -/

/-- A sentence loop that strips, tests a property and appends is the
filter of that property over the stripped sentences. -/
theorem filterMap_guard_trim (P : String → Prop) [DecidablePred P]
    (l : List String) :
    (l.filterMap (fun sentence =>
      let s := trimStr sentence
      if P s then some s else none)) =
    (l.map trimStr).filter (fun s => decide (P s)) := by
  induction l with
  | nil => rfl
  | cons x xs ih =>
    simp only [List.filterMap_cons, List.map_cons, List.filter_cons]
    by_cases h : P (trimStr x)
    · simp [h, ih]
    · simp [h, ih]

/-- `_extract_claims` as a declarative filter: stripped sentences longer
than 10 characters containing a copular/possessive verb substring (no
hedge filter). -/
theorem extract_claims_eq_filter (text : String) :
    extract_claims text = ((pySplitPunct text).map trimStr).filter
      (fun s => decide (s.length > 10 ∧
        (["is", "are", "was", "were", "has", "have"].any
          (fun w => strOccurs w (lowerStr s))))) := by
  rw [extract_claims]
  exact filterMap_guard_trim
    (fun s => s.length > 10 ∧
      (["is", "are", "was", "were", "has", "have"].any
        (fun w => strOccurs w (lowerStr s)))) (pySplitPunct text)

/-- `_extract_factual_claims` as a declarative filter: stripped sentences
longer than 15 characters not starting with a subjective hedge (no
copular-verb requirement). -/
theorem extract_factual_claims_eq_filter (text : String) :
    extract_factual_claims text = ((pySplitPunct text).map trimStr).filter
      (fun s => decide (s.length > 15 ∧
        ¬ (["i think", "in my opinion", "perhaps"].any
          (fun p => strAtStart (lowerStr s) p)))) := by
  rw [extract_factual_claims]
  exact filterMap_guard_trim
    (fun s => s.length > 15 ∧
      ¬ (["i think", "in my opinion", "perhaps"].any
        (fun p => strAtStart (lowerStr s) p))) (pySplitPunct text)

/-- C2 counterexample: the two components do not apply one shared filter,
and neither implements the spec's combined rule.  The hedged sentence is
kept by `_extract_claims` (which has no hedge filter) but dropped by
`_extract_factual_claims`; the verb-free sentence is kept by
`_extract_factual_claims` (which has no verb requirement) but dropped by
the spec's shared rule. -/
theorem C2_counterexample_filters_differ :
    extract_claims "perhaps this is a true statement" ≠
      extract_factual_claims "perhaps this is a true statement" ∧
    extract_claims "perhaps this is a true statement" ≠
      specSharedClaimFilter "perhaps this is a true statement" ∧
    extract_factual_claims "An apple a day keeps doctors away" ≠
      specSharedClaimFilter "An apple a day keeps doctors away" :=
  ⟨by decide, by decide, by decide⟩

/-- C2 (amended): the two extraction rules are different filters over the
same sentence split.  Self-consistency keeps stripped sentences of more
than 10 characters containing one of the verb tokens as a substring of
the lowercased sentence and applies no hedge filter; fact verification
keeps stripped sentences of more than 15 characters not starting with a
subjective hedge and requires no verb token. -/
theorem C2_amended_two_different_filters (text : String) :
    extract_claims text = ((pySplitPunct text).map trimStr).filter
      (fun s => decide (s.length > 10 ∧
        (["is", "are", "was", "were", "has", "have"].any
          (fun w => strOccurs w (lowerStr s))))) ∧
    extract_factual_claims text = ((pySplitPunct text).map trimStr).filter
      (fun s => decide (s.length > 15 ∧
        ¬ (["i think", "in my opinion", "perhaps"].any
          (fun p => strAtStart (lowerStr s) p)))) :=
  ⟨extract_claims_eq_filter text, extract_factual_claims_eq_filter text⟩

/-! ## C3: the sampler is never invoked -/

/-- C3 counterexample: two samplers that disagree on every input produce
identical sample lists, and the sampler's output never appears among the
collected samples — so `check_consistency` does not invoke the sampler to
collect variants, and no sampler failure can occur or be recorded. -/
theorem C3_counterexample_sampler_ignored :
    (check_consistency ⟨5, 0.7⟩ (fun _ => "alpha") []).samples =
      (check_consistency ⟨5, 0.7⟩ (fun _ => "beta") []).samples ∧
    "alpha" ∉ (check_consistency ⟨5, 0.7⟩ (fun _ => "alpha") []).samples ∧
    ((fun _ => "alpha" : AgentFn) [] ≠ (fun _ => "beta" : AgentFn) []) :=
  ⟨rfl, by decide, by decide⟩

/-- C3 (amended): `check_consistency` calls the placeholder
`_generate_sample` exactly `num_samples` times; `_generate_sample` never
invokes the supplied agent function, so the whole check (samples,
agreement, consensus, divergent points) is independent of the sampler,
and there is no failed-sample handling because no sampler call happens. -/
theorem C3_amended_sampler_never_invoked (cfg : SCConfig) (f g : AgentFn)
    (input_data : Context) :
    (check_consistency cfg f input_data).samples =
      List.replicate cfg.num_samples (generate_sample f input_data) ∧
    generate_sample f input_data = generate_sample g input_data ∧
    check_consistency cfg f input_data = check_consistency cfg g input_data :=
  ⟨rfl, rfl, rfl⟩

/-! ## C4: no input validation -/

/-- C4 counterexample: a call with a non-mapping context (the integer 7)
and claim-free response returns normally instead of raising; a call with
a non-string response (the integer 42) raises `AttributeError`, which is
not `InvalidInputError`. -/
theorem C4_counterexample_no_validation :
    exceptIsOk (detectDyn defaultConfig (.pstr "") (.pint 7)) = true ∧
    exceptErr (detectDyn defaultConfig (.pint 42) (.pdict [])) =
      some .attributeError ∧
    PyErr.attributeError ≠ PyErr.invalidInputError :=
  ⟨by decide, by decide, by decide⟩

/-- C4 (amended): `detect` performs no input validation and never raises
`InvalidInputError` (the class does not exist in the source).  A
non-string response raises `AttributeError` from `response.lower()`;
well-typed input always returns the well-formed result of the pure
`detect`. -/
theorem C4_amended_attribute_error (cfg : DetectorConfig) (s : String)
    (d : Context) (n : ℤ) (context : PyVal) :
    detectDyn cfg (.pstr s) (.pdict d) = .ok (detect cfg s d none) ∧
    detectDyn cfg (.pint n) context = .error .attributeError :=
  ⟨rfl, rfl⟩

end Neuron
